import Mathlib

/-!
Shallow embedding of the alias-shortening service in `src/go/src/main.rs`:
the LMDB-backed alias table (`Database<Str, Str>` named "requests"), the
GET handler `root` (resolve) and the POST handler `shorten` (create), the
startup sequence of `main` (environment opened in a fresh temporary
directory), and the execution context each store call runs on.
-/

/-- The persisted alias table of the LMDB database named "requests": an
association list from alias strings to destination URL strings, most recent
write first. -/
abbrev Database : Type := List (String × String)

/-- Lookup of `db.get(&rtxn, &alias)`: first binding for the key, if any.
LMDB rejects a zero-length key (MDB_BAD_VALSIZE), and a zero-length key can
never have been stored (`mdb_put` rejects it too); since `root` answers the
resulting `Err` exactly like an absent key, the zero-length lookup is
folded into `none`. The 511-byte key cap is not modelled. -/
def Database.get (db : Database) (key : String) : Option String :=
  if key = "" then none
  else (db.find? (fun kv => kv.1 = key)).map (fun kv => kv.2)

/-- The put call `db.put(&mut wtxn, key, val)`: `mdb_put` rejects a
zero-length key with MDB_BAD_VALSIZE (zero-length values are allowed);
otherwise the pair is staged, shadowing any earlier binding of the key, so
`Database.get` sees the newest value. The 511-byte key cap is not
modelled. -/
def Database.put (db : Database) (key value : String) :
    Except String Database :=
  if key = "" then Except.error "MDB_BAD_VALSIZE"
  else Except.ok ((key, value) :: db)

/-- Request payload of POST `/` (struct `CreateShortUrl` in the source). -/
structure CreateShortUrl : Type where
  url : String
  «alias» : String
deriving DecidableEq, Repr

/-- Response payload of POST `/` (struct `ShortUrl` in the source, with its
nullable `error` field). -/
structure ShortUrl : Type where
  url : String
  «alias» : String
  error : Option String
deriving DecidableEq, Repr

/-- The response the GET handler produces: `Redirect::temporary(target)`. -/
inductive Redirect : Type where
  | temporary (target : String)
deriving DecidableEq, Repr

/-- Result of the underlying store read `db.get(&rtxn, &alias)` as the
handler sees it: `Ok(Some v)`, `Ok(None)`, or `Err(e)` where `e` is the
storage error's message. -/
inductive DbReadResult : Type where
  | ok (value : Option String)
  | err (message : String)
deriving DecidableEq, Repr

/-- Body of the GET handler `root` as a function of the store read result:
`Ok(Some value)` redirects to `value`; `Ok(None)` redirects to "/"; `Err(e)`
logs the error and redirects to "/". -/
def rootRespond : DbReadResult → Redirect
  | DbReadResult.ok (some value) => Redirect.temporary value
  | DbReadResult.ok none => Redirect.temporary "/"
  | DbReadResult.err _ => Redirect.temporary "/"

/-- The GET handler `root` on a healthy store: performs the read
`db.get(&rtxn, &alias)` and responds via `rootRespond`. -/
def root (db : Database) («alias» : String) : Redirect :=
  rootRespond (DbReadResult.ok (db.get «alias»))

/-- Fault injection for the three fallible store calls in `shorten`:
`env.write_txn()`, `db.put(..)` and `wtxn.commit()`, each of which the
source unwraps with `.expect(..)`. A set flag means that call, if reached,
fails with a storage error. -/
structure Faults : Type where
  writeTxnFail : Bool
  putFail : Bool
  commitFail : Bool
deriving DecidableEq, Repr

/-- The fault-free case: every store call succeeds when its input is one
the store accepts. -/
def noFaults : Faults := ⟨false, false, false⟩

/-- The POST handler `shorten` with fault injection. It builds the response
record `{ url := payload.url, alias := payload.alias, error := None }`
before touching the store, then (inside `spawn_blocking`) begins a write
transaction, puts `(alias, url)` and commits, in that order. Each failing
store call hits its `.expect(..)` and panics with that message
(`Except.error msg`), leaving the committed database unchanged; the put
fails not only under an injected fault but also, intrinsically, on a
zero-length key, which `mdb_put` rejects. On success it returns status 201
(CREATED) with the echoed record and the database with the new binding
committed. -/
def shortenF (f : Faults) (db : Database) (payload : CreateShortUrl) :
    Except String (Nat × ShortUrl) × Database :=
  let url : ShortUrl :=
    { url := payload.url, «alias» := payload.«alias», error := none }
  if f.writeTxnFail then
    (Except.error "Failed to create write transaction", db)
  else
    match (if f.putFail then (Except.error "injected put failure" :
        Except String Database) else db.put url.«alias» url.url) with
    | Except.error _ => (Except.error "Failed to write to DB", db)
    | Except.ok staged =>
      if f.commitFail then
        (Except.error "Failed to commit transaction", db)
      else
        (Except.ok (201, url), staged)

/-- The POST handler `shorten` on a healthy store. -/
def shorten (db : Database) (payload : CreateShortUrl) :
    Except String (Nat × ShortUrl) × Database :=
  shortenF noFaults db payload

/-- The committed database after a sequence of create calls starting from a
given database. -/
def applyCreates (db : Database) (calls : List CreateShortUrl) : Database :=
  calls.foldl (fun d p => (shorten d p).2) db

/-! ### Startup and restart model

`main` opens the LMDB environment not at a configured persistent path but in
a fresh temporary directory obtained from `tempfile::tempdir()`; the
`TempDir` value deletes the directory when it is dropped at process exit.
The filesystem is modelled as a map from directory paths to the persisted
table contents. -/

/-- The filesystem: directory paths mapped to the persisted alias table
stored in the LMDB environment at that path. -/
abbrev FileSys : Type := List (String × Database)

/-- Read the table persisted at a path; a path with no environment yields an
empty table (`EnvOpenOptions.open` creates the environment). -/
def FileSys.readTable (fs : FileSys) (path : String) : Database :=
  ((fs.find? (fun e => e.1 = path)).map (fun e => e.2)).getD []

/-- Persist a table at a path. -/
def FileSys.writeTable (fs : FileSys) (path : String) (db : Database) :
    FileSys :=
  (path, db) :: fs

/-- Delete the directory at a path (the `TempDir` drop at process exit). -/
def FileSys.remove (fs : FileSys) (path : String) : FileSys :=
  fs.filter (fun e => e.1 ≠ path)

/-- The fresh directory name `tempfile::tempdir()` returns for the n-th
process start: a new, initially empty directory each time. -/
def tempdirName (n : Nat) : String := "/tmp/silly-" ++ toString n

/-- One full process lifetime, numbered `n`: `main` calls
`tempfile::tempdir()` (a fresh empty directory), opens the environment
there, serves the given create calls, and on clean shutdown drops the
`TempDir`, deleting the directory. Returns the filesystem after exit and
the in-memory table the process ended with. -/
def runProcess (fs : FileSys) (n : Nat) (calls : List CreateShortUrl) :
    FileSys × Database :=
  let path := tempdirName n
  let fs1 := fs.writeTable path []
  let finalTable := applyCreates (fs1.readTable path) calls
  let fs2 := fs1.writeTable path finalTable
  (fs2.remove path, finalTable)

/-! ### Execution contexts

Which execution context each store call of the two handlers runs on in the
source: `shorten` wraps its write transaction, put and commit in
`tokio::task::spawn_blocking`, while `root` runs `env.read_txn()` and
`db.get(..)` inline in the async handler, on the request-serving
scheduler. -/

/-- An execution context: the async request-serving scheduler, or the
dedicated blocking-task pool entered via `tokio::task::spawn_blocking`. -/
inductive ExecCtx : Type where
  | scheduler
  | blockingPool
deriving DecidableEq, Repr

/-- The store calls the embedding distinguishes. -/
inductive StoreCall : Type where
  | readTxn
  | getCall
  | writeTxn
  | putCall
  | commitCall
deriving DecidableEq, Repr

/-- Store calls issued by the GET handler `root`, in order, each tagged with
the execution context the source runs it on: `env.read_txn()` and
`db.get(&rtxn, &alias)` are executed directly in the async handler body. -/
def rootStoreCalls : List (ExecCtx × StoreCall) :=
  [(ExecCtx.scheduler, StoreCall.readTxn),
   (ExecCtx.scheduler, StoreCall.getCall)]

/-- Store calls issued by the POST handler `shorten`, in order, each tagged
with the execution context the source runs it on: `env.write_txn()`,
`db.put(..)` and `wtxn.commit()` all run inside the closure passed to
`tokio::task::spawn_blocking`. -/
def shortenStoreCalls : List (ExecCtx × StoreCall) :=
  [(ExecCtx.blockingPool, StoreCall.writeTxn),
   (ExecCtx.blockingPool, StoreCall.putCall),
   (ExecCtx.blockingPool, StoreCall.commitCall)]

/-! ### Helper lemmas -/

/-- Looking up a zero-length key yields nothing. -/
theorem Database.get_empty_key (db : Database) : db.get "" = none := by
  simp [Database.get]

/-- Every lookup in the empty table misses. -/
theorem Database.get_nil (a : String) : Database.get [] a = none := by
  by_cases ha : a = "" <;> simp [Database.get, ha]

/-- A lookup immediately after a successful put of the same key returns the
new value. -/
theorem Database.get_cons_self (db : Database) (k v : String) (h : k ≠ "") :
    Database.get ((k, v) :: db) k = some v := by
  simp [Database.get, List.find?, h]

/-- A newly staged binding of a different key does not change a lookup. -/
theorem Database.get_cons_ne (db : Database) (k v a : String) (h : k ≠ a) :
    Database.get ((k, v) :: db) a = Database.get db a := by
  by_cases ha : a = ""
  · subst ha; simp [Database.get]
  · simp [Database.get, List.find?, ha, h]

/-- A put of a non-empty key succeeds and stages the binding. -/
theorem Database.put_nonempty (db : Database) (k v : String) (h : k ≠ "") :
    db.put k v = Except.ok ((k, v) :: db) := by
  simp [Database.put, h]

/-- A put of the zero-length key is rejected by the store. -/
theorem Database.put_empty_key (db : Database) (v : String) :
    db.put "" v = Except.error "MDB_BAD_VALSIZE" := rfl

/-- Resolving a key right after creating it redirects to its new value. -/
theorem root_cons_self (db : Database) (k v : String) (h : k ≠ "") :
    root ((k, v) :: db) k = Redirect.temporary v := by
  show rootRespond (DbReadResult.ok (Database.get ((k, v) :: db) k)) = _
  rw [Database.get_cons_self db k v h]
  rfl

/-- A create with a non-empty alias succeeds on a healthy store: status
201, the echoed record, and the binding committed. -/
theorem shorten_ok (db : Database) (p : CreateShortUrl)
    (h : p.«alias» ≠ "") :
    shorten db p =
      (Except.ok (201, { url := p.url, «alias» := p.«alias», error := none }),
        (p.«alias», p.url) :: db) := by
  simp [shorten, shortenF, noFaults, Database.put, h]

/-- A create with the empty alias panics at the put (the store rejects the
zero-length key) and leaves the committed database unchanged. -/
theorem shorten_empty_alias (db : Database) (p : CreateShortUrl)
    (h : p.«alias» = "") :
    shorten db p = (Except.error "Failed to write to DB", db) := by
  simp [shorten, shortenF, noFaults, Database.put, h]

/-- An alias that no create call in a run ever used is absent from the
resulting database, provided it was absent initially. -/
theorem get_applyCreates_none (calls : List CreateShortUrl) (db : Database)
    (a : String) (h : ∀ p ∈ calls, p.«alias» ≠ a) (hdb : db.get a = none) :
    (applyCreates db calls).get a = none := by
  induction calls generalizing db with
  | nil => exact hdb
  | cons p rest ih =>
    have hp : p.«alias» ≠ a := h p (List.mem_cons_self _ _)
    have hrest : ∀ q ∈ rest, q.«alias» ≠ a :=
      fun q hq => h q (List.mem_cons_of_mem _ hq)
    show (applyCreates ((shorten db p).2) rest).get a = none
    refine ih _ hrest ?_
    by_cases hpe : p.«alias» = ""
    · rw [shorten_empty_alias db p hpe]
      exact hdb
    · rw [shorten_ok db p hpe]
      show Database.get ((p.«alias», p.url) :: db) a = none
      rw [Database.get_cons_ne db p.«alias» p.url a hp, hdb]

/-! ### Claim theorems -/

/-- Claim C3 (confirmed): for every valid pair with an alias not already in
the alias table, create followed by resolve of that alias redirects exactly
to the created destination. -/
theorem creation_then_lookup_exact (db : Database) (p : CreateShortUrl)
    (_hfresh : db.get p.«alias» = none)
    (ha : p.«alias» ≠ "") (_hd : p.url ≠ "") :
    root (shorten db p).2 p.«alias» = Redirect.temporary p.url := by
  rw [shorten_ok db p ha]
  exact root_cons_self db p.«alias» p.url ha

/-- Witness for C3 at alias "a", destination "http://x", empty table. -/
theorem creation_then_lookup_exact_witness :
    (Database.get [] "a" = none ∧ "a" ≠ "" ∧ "http://x" ≠ "") ∧
    root (shorten [] ⟨"http://x", "a"⟩).2 "a" = Redirect.temporary "http://x" :=
  ⟨⟨rfl, by decide, by decide⟩,
   creation_then_lookup_exact [] ⟨"http://x", "a"⟩ rfl (by decide) (by decide)⟩

/-- Claim C4 (confirmed): resolving an alias that no create call of the run
ever used yields the miss outcome, the temporary redirect to "/". The
handler is a total function into `Redirect`, so the miss is a normal
result, never an error. -/
theorem lookup_never_created_misses (calls : List CreateShortUrl)
    (a : String) (h : ∀ p ∈ calls, p.«alias» ≠ a) :
    root (applyCreates [] calls) a = Redirect.temporary "/" := by
  show rootRespond (DbReadResult.ok ((applyCreates [] calls).get a)) = _
  rw [get_applyCreates_none calls [] a h (Database.get_nil a)]
  rfl

/-- Witness for C4: after creating only alias "b", alias "a" misses. -/
theorem lookup_never_created_misses_witness :
    (∀ p ∈ [(⟨"http://x", "b"⟩ : CreateShortUrl)], p.«alias» ≠ "a") ∧
    root (applyCreates [] [⟨"http://x", "b"⟩]) "a" = Redirect.temporary "/" :=
  ⟨by decide, lookup_never_created_misses [⟨"http://x", "b"⟩] "a" (by decide)⟩

/-- Claim C9 counterexample: at the empty alias the claim fails — the very
first create does not report success: the put is rejected by the store
(zero-length key), the handler panics, and nothing is stored. -/
theorem sequential_create_empty_alias_panics :
    (shorten [] ⟨"http://y", ""⟩).1 = Except.error "Failed to write to DB" ∧
    (shorten [] ⟨"http://y", ""⟩).2 = [] :=
  ⟨rfl, rfl⟩

/-- Claim C9 as amended: for every alias the store can hold (non-empty),
two sequential creates of that alias both report success with status 201
and the echoed record, and the later destination wins: resolve returns d2.
An empty alias makes both calls panic at the put instead. -/
theorem sequential_create_overwrites (db : Database) (a d1 d2 : String)
    (ha : a ≠ "") :
    (shorten db ⟨d1, a⟩).1 = Except.ok (201, ⟨d1, a, none⟩) ∧
    (shorten (shorten db ⟨d1, a⟩).2 ⟨d2, a⟩).1 =
      Except.ok (201, ⟨d2, a, none⟩) ∧
    root (shorten (shorten db ⟨d1, a⟩).2 ⟨d2, a⟩).2 a =
      Redirect.temporary d2 := by
  have h1 := shorten_ok db ⟨d1, a⟩ ha
  have h2 := shorten_ok ((a, d1) :: db) ⟨d2, a⟩ ha
  refine ⟨?_, ?_, ?_⟩
  · simp only [h1]
  · simp only [h1, h2]
  · simp only [h1, h2]
    exact root_cons_self ((a, d1) :: db) a d2 ha

/-- Witness for the amended C9 at alias "a". -/
theorem sequential_create_overwrites_witness :
    ("a" : String) ≠ "" ∧
    ((shorten [] ⟨"http://x", "a"⟩).1 =
        Except.ok (201, ⟨"http://x", "a", none⟩) ∧
      (shorten (shorten [] ⟨"http://x", "a"⟩).2 ⟨"http://y", "a"⟩).1 =
        Except.ok (201, ⟨"http://y", "a", none⟩) ∧
      root (shorten (shorten [] ⟨"http://x", "a"⟩).2 ⟨"http://y", "a"⟩).2 "a" =
        Redirect.temporary "http://y") :=
  ⟨by decide,
   sequential_create_overwrites [] "a" "http://x" "http://y" (by decide)⟩

/-- Claim C10 counterexample: an empty-alias payload produces no response
at all — the handler panics at the put — so no response echoes it. -/
theorem create_empty_alias_no_response :
    (shorten [("b", "http://q")] ⟨"http://z", ""⟩).1 =
      Except.error "Failed to write to DB" :=
  rfl

/-- Claim C10 as amended: every create that produces a response — any
payload whose alias is non-empty — echoes the request exactly, with the
error field None and status 201 (CREATED), whatever the prior contents of
the alias table; an empty-alias payload yields no response because the
handler panics at the put. -/
theorem create_response_echoes (db : Database) (p : CreateShortUrl)
    (ha : p.«alias» ≠ "") :
    (shorten db p).1 =
      Except.ok (201, { url := p.url, «alias» := p.«alias», error := none }) := by
  simp only [shorten_ok db p ha]

/-- Witness for the amended C10 against a non-empty prior table. -/
theorem create_response_echoes_witness :
    ((⟨"http://x", "a"⟩ : CreateShortUrl).«alias» ≠ "") ∧
    (shorten [("z", "http://w")] ⟨"http://x", "a"⟩).1 =
      Except.ok (201, { url := "http://x", «alias» := "a", error := none }) :=
  ⟨by decide,
   create_response_echoes [("z", "http://w")] ⟨"http://x", "a"⟩ (by decide)⟩

/-- Claim C1 counterexample: after create("a","http://x"), a second
create("a","http://y") does not fail with AliasTaken — it succeeds with
status 201 and mutates the table, and resolve("a") then returns
"http://y", no longer the original "http://x". -/
theorem second_create_not_rejected :
    (shorten (shorten [] ⟨"http://x", "a"⟩).2 ⟨"http://y", "a"⟩).1 =
      Except.ok (201, ⟨"http://y", "a", none⟩) ∧
    root (shorten (shorten [] ⟨"http://x", "a"⟩).2 ⟨"http://y", "a"⟩).2 "a" =
      Redirect.temporary "http://y" ∧
    Redirect.temporary "http://y" ≠ Redirect.temporary "http://x" :=
  ⟨rfl, rfl, by decide⟩

/-- Claim C1 as amended: a create whose alias is already present in the
alias table does not fail; it succeeds with status 201 and silently
overwrites, so a subsequent resolve returns the new destination. -/
theorem create_existing_overwrites (db : Database) (p : CreateShortUrl)
    (d1 : String) (hpresent : db.get p.«alias» = some d1) :
    (shorten db p).1 =
      Except.ok (201, { url := p.url, «alias» := p.«alias», error := none }) ∧
    root (shorten db p).2 p.«alias» = Redirect.temporary p.url := by
  have ha : p.«alias» ≠ "" := by
    intro h
    rw [h, Database.get_empty_key] at hpresent
    exact Option.noConfusion hpresent
  rw [shorten_ok db p ha]
  exact ⟨rfl, root_cons_self db p.«alias» p.url ha⟩

/-- Witness for the amended C1 at a table already holding ("a","http://x"). -/
theorem create_existing_overwrites_witness :
    Database.get [("a", "http://x")] "a" = some "http://x" ∧
    ((shorten [("a", "http://x")] ⟨"http://y", "a"⟩).1 =
        Except.ok (201, { url := "http://y", «alias» := "a", error := none }) ∧
      root (shorten [("a", "http://x")] ⟨"http://y", "a"⟩).2 "a" =
        Redirect.temporary "http://y") :=
  ⟨rfl, create_existing_overwrites [("a", "http://x")] ⟨"http://y", "a"⟩
    "http://x" rfl⟩

/-- Claim C2 counterexample: create("a","") succeeds with status 201 and
commits its mapping instead of failing with InvalidRecord — resolve("a")
afterwards redirects to "", not to the miss page — and create("","http://x")
fails not with InvalidRecord before a transaction but with a handler panic
at the storage layer's put, after the write transaction has begun; no entry
is stored. -/
theorem empty_input_not_invalid_record :
    (shorten [] ⟨"", "a"⟩).1 = Except.ok (201, ⟨"", "a", none⟩) ∧
    (shorten [] ⟨"", "a"⟩).2 = [("a", "")] ∧
    root (shorten [] ⟨"", "a"⟩).2 "a" = Redirect.temporary "" ∧
    Redirect.temporary "" ≠ Redirect.temporary "/" ∧
    (shorten [] ⟨"http://x", ""⟩).1 = Except.error "Failed to write to DB" ∧
    (shorten [] ⟨"http://x", ""⟩).2 = [] :=
  ⟨rfl, rfl, rfl, by decide, rfl, rfl⟩

/-- Claim C2 as amended: create validates nothing itself. An empty
destination is accepted with status 201 and committed, so the alias then
resolves to the empty destination; an empty alias is rejected only inside
the storage layer — the put fails on the zero-length key after the write
transaction has begun, the handler panics, and no entry is stored. Neither
case produces InvalidRecord. -/
theorem create_empty_input_behavior (db : Database) (a url : String)
    (ha : a ≠ "") :
    ((shorten db ⟨"", a⟩).1 = Except.ok (201, ⟨"", a, none⟩) ∧
      (shorten db ⟨"", a⟩).2 = (a, "") :: db ∧
      root (shorten db ⟨"", a⟩).2 a = Redirect.temporary "") ∧
    ((shorten db ⟨url, ""⟩).1 = Except.error "Failed to write to DB" ∧
      (shorten db ⟨url, ""⟩).2 = db) := by
  have h1 := shorten_ok db ⟨"", a⟩ ha
  have h2 := shorten_empty_alias db ⟨url, ""⟩ rfl
  refine ⟨⟨?_, ?_, ?_⟩, ?_, ?_⟩
  · simp only [h1]
  · simp only [h1]
  · simp only [h1]
    exact root_cons_self db a "" ha
  · simp only [h2]
  · simp only [h2]

/-- Witness for the amended C2 at alias "a" and destination "http://x". -/
theorem create_empty_input_behavior_witness :
    ("a" : String) ≠ "" ∧
    (((shorten [] ⟨"", "a"⟩).1 = Except.ok (201, ⟨"", "a", none⟩) ∧
        (shorten [] ⟨"", "a"⟩).2 = [("a", "")] ∧
        root (shorten [] ⟨"", "a"⟩).2 "a" = Redirect.temporary "") ∧
      ((shorten [] ⟨"http://x", ""⟩).1 =
          Except.error "Failed to write to DB" ∧
        (shorten [] ⟨"http://x", ""⟩).2 = [])) :=
  ⟨by decide, create_empty_input_behavior [] "a" "http://x" (by decide)⟩

/-- Claim C5 counterexample: a storage read failure during resolve produces
exactly the same response as a miss — the temporary redirect to "/" — so
the caller cannot distinguish a storage error from an absent alias. -/
theorem read_error_equals_miss :
    rootRespond (DbReadResult.err "MDB_PANIC: fatal error") =
      Redirect.temporary "/" ∧
    rootRespond (DbReadResult.ok none) = Redirect.temporary "/" ∧
    rootRespond (DbReadResult.err "MDB_PANIC: fatal error") =
      rootRespond (DbReadResult.ok none) :=
  ⟨rfl, rfl, rfl⟩

/-- Claim C5 as amended: every storage read failure during resolve is
swallowed into the same redirect as a miss, and any storage failure during
create ends in a handler panic rather than a structured server-side
failure result. -/
theorem storage_failure_swallowed (e : String) (f : Faults) (db : Database)
    (p : CreateShortUrl) (hf : f ≠ noFaults) :
    rootRespond (DbReadResult.err e) = rootRespond (DbReadResult.ok none) ∧
    ∃ msg, (shortenF f db p).1 = Except.error msg := by
  refine ⟨rfl, ?_⟩
  rcases f with ⟨wt, pt, ct⟩
  cases wt
  · cases pt
    · cases ct
      · exact absurd rfl hf
      · by_cases ha : p.«alias» = ""
        · exact ⟨"Failed to write to DB", by simp [shortenF, Database.put, ha]⟩
        · exact ⟨"Failed to commit transaction",
            by simp [shortenF, Database.put, ha]⟩
    · exact ⟨"Failed to write to DB", rfl⟩
  · exact ⟨"Failed to create write transaction", rfl⟩

/-- Witness for the amended C5 with a failing write transaction begin. -/
theorem storage_failure_swallowed_witness :
    (⟨true, false, false⟩ : Faults) ≠ noFaults ∧
    (rootRespond (DbReadResult.err "io error") =
        rootRespond (DbReadResult.ok none) ∧
      ∃ msg,
        (shortenF ⟨true, false, false⟩ [] ⟨"http://x", "a"⟩).1 =
          Except.error msg) :=
  ⟨by decide,
   storage_failure_swallowed "io error" ⟨true, false, false⟩ []
     ⟨"http://x", "a"⟩ (by decide)⟩

/-- Claim C6 counterexample: when the commit fails, the handler does not
report StorageCommitError (or any result) to the caller — it panics with
the expect message "Failed to commit transaction"; the committed database
is unchanged. -/
theorem commit_failure_is_panic :
    (shortenF ⟨false, false, true⟩ [] ⟨"http://x", "a"⟩).1 =
      Except.error "Failed to commit transaction" ∧
    (shortenF ⟨false, false, true⟩ [] ⟨"http://x", "a"⟩).2 = [] :=
  ⟨rfl, rfl⟩

/-- Claim C6 as amended: each failure on the write path makes the handler
panic with the expect message of the first failing call — write
transaction begin, then the put (which also fails intrinsically on a
zero-length key), then the commit — instead of returning a result, and on
every such failure path the committed database is left unchanged. -/
theorem write_failure_panics_unchanged (db : Database) (p : CreateShortUrl) :
    ((shortenF ⟨true, false, false⟩ db p).1 =
        Except.error "Failed to create write transaction" ∧
      (shortenF ⟨true, false, false⟩ db p).2 = db) ∧
    ((shortenF ⟨false, true, false⟩ db p).1 =
        Except.error "Failed to write to DB" ∧
      (shortenF ⟨false, true, false⟩ db p).2 = db) ∧
    ((shortenF ⟨false, false, true⟩ db p).1 =
        Except.error (if p.«alias» = "" then "Failed to write to DB"
          else "Failed to commit transaction") ∧
      (shortenF ⟨false, false, true⟩ db p).2 = db) := by
  refine ⟨⟨rfl, rfl⟩, ⟨rfl, rfl⟩, ?_, ?_⟩
  · by_cases ha : p.«alias» = "" <;> simp [shortenF, Database.put, ha]
  · by_cases ha : p.«alias» = "" <;> simp [shortenF, Database.put, ha]

/-- Claim C7: the code evaluated at the failing scenario. Process 0 creates
("a","http://x") and can resolve it while running, but main opened the
environment in a fresh temporary directory that is deleted at clean
shutdown, so the filesystem retains nothing; the restarted process 1 opens
another fresh temporary directory and resolve("a") yields the miss
redirect "/", not "http://x". -/
theorem restart_loses_mapping :
    root (runProcess [] 0 [⟨"http://x", "a"⟩]).2 "a" =
      Redirect.temporary "http://x" ∧
    (runProcess [] 0 [⟨"http://x", "a"⟩]).1 = [] ∧
    root (runProcess (runProcess [] 0 [⟨"http://x", "a"⟩]).1 1 []).2 "a" =
      Redirect.temporary "/" ∧
    Redirect.temporary "/" ≠ Redirect.temporary "http://x" := by
  refine ⟨rfl, ?_, rfl, by decide⟩
  decide

/-- Claim C8 counterexample: the GET handler runs its store calls — the
read transaction begin and the lookup — on the request-serving scheduler,
not on the blocking pool. -/
theorem resolve_store_calls_on_scheduler :
    rootStoreCalls =
      [(ExecCtx.scheduler, StoreCall.readTxn),
       (ExecCtx.scheduler, StoreCall.getCall)] ∧
    ExecCtx.scheduler ≠ ExecCtx.blockingPool :=
  ⟨rfl, by decide⟩

/-- Claim C8 as amended: only the POST handler offloads its store calls
(write transaction begin, put, commit) to the blocking pool via
spawn_blocking; the GET handler's store calls (read transaction begin,
lookup) run inline on the request-serving scheduler. -/
theorem store_call_contexts :
    shortenStoreCalls.map Prod.fst =
      [ExecCtx.blockingPool, ExecCtx.blockingPool, ExecCtx.blockingPool] ∧
    rootStoreCalls.map Prod.fst = [ExecCtx.scheduler, ExecCtx.scheduler] :=
  ⟨rfl, rfl⟩
